import Mathlib

/-!
Verification development for the consul-help CLI (src/main.rs).

The program loads key/value pairs from a Consul store under an application
namespace, flattens a YAML document into slash-delimited key/value pairs,
computes the asymmetric set difference (remote minus document), and reports
it.  The definitions below are a shallow embedding of the pure core of
src/main.rs; each definition's doc comment names the Rust item it embeds.
-/

/-- Embeds `struct ConsulProperties { key: String, value: String }`
(src/main.rs:30-34).  The Rust type derives `PartialEq, Eq, Hash`, so
equality is whole-pair equality on both fields. -/
structure ConsulProperties where
  key : String
  value : String
deriving DecidableEq

/-- Embeds `serde_yaml::Value`, the parsed YAML tree: null, booleans,
numbers, strings, sequences, mappings (insertion-ordered lists of
key/value node pairs, as in serde_yaml's `Mapping`), and tagged nodes.
The `number` case models the integer payloads of `serde_yaml::Number`;
floating-point payloads are outside this embedding. -/
inductive Value where
  | null : Value
  | bool (b : Bool) : Value
  | number (n : Int) : Value
  | str (s : String) : Value
  | sequence (xs : List Value) : Value
  | mapping (entries : List (Value × Value)) : Value
  | tagged (tag : String) (v : Value) : Value

mutual
/-- Models Rust's `format!("{:?}", value)` on a `serde_yaml::Value`: a
deterministic structural rendering.  Its exact text is a debug fallback the
design leaves unspecified ("need not produce pretty output, only
non-crashing, deterministic output"), so this embedding fixes one
deterministic rendering. -/
def valueDebug : Value → String
  | .null => "Null"
  | .bool b => "Bool(" ++ toString b ++ ")"
  | .number n => "Number(" ++ toString n ++ ")"
  | .str s => "String(" ++ s ++ ")"
  | .sequence xs => "Sequence [" ++ String.intercalate ", " (valueDebugList xs) ++ "]"
  | .mapping es => "Mapping [" ++ String.intercalate ", " (valueDebugEntries es) ++ "]"
  | .tagged t v => "Tagged(" ++ t ++ ", " ++ valueDebug v ++ ")"

/-- Debug rendering of a list of sequence elements. -/
def valueDebugList : List Value → List String
  | [] => []
  | v :: rest => valueDebug v :: valueDebugList rest

/-- Debug rendering of a list of mapping entries. -/
def valueDebugEntries : List (Value × Value) → List String
  | [] => []
  | (k, v) :: rest => (valueDebug k ++ ": " ++ valueDebug v) :: valueDebugEntries rest
end

/-- Embeds `value_to_string` (src/main.rs:131-141): null renders as the
literal text "null", booleans via `bool::to_string` ("true"/"false"),
numbers via decimal `to_string`, strings as themselves, and the remaining
node kinds through the `format!("{:?}", _)` debug fallback. -/
def value_to_string : Value → String
  | .null => "null"
  | .bool b => toString b
  | .number n => toString n
  | .str s => s
  | v => valueDebug v

mutual
/-- Embeds `flatten_yaml` (src/main.rs:105-129).  A mapping entry whose key
is a plain string node recurses with the key appended to the accumulated
path ("/"-separated unless the path is still empty); entries with any other
key shape are skipped.  A sequence element at position `i` recurses with
"[i]" appended with no separator.  Every other node is a leaf and pushes
one (path, rendered value) pair.  The Rust code pushes into a mutable
vector; here the pushed pairs are returned in the same order. -/
def flatten_yaml : Value → String → List (String × String)
  | .mapping entries, pfx => flattenEntries entries pfx
  | .sequence xs, pfx => flattenElems xs pfx 0
  | v, pfx => [(pfx, value_to_string v)]

/-- The mapping arm of `flatten_yaml`: iterate the entries in order,
recursing only on those whose key matches `Value::String(key_str)`. -/
def flattenEntries : List (Value × Value) → String → List (String × String)
  | [], _ => []
  | (k, v) :: rest, pfx =>
      (match k with
       | .str s => flatten_yaml v (if pfx.isEmpty then s else pfx ++ "/" ++ s)
       | _ => []) ++ flattenEntries rest pfx

/-- The sequence arm of `flatten_yaml`: iterate with `enumerate`, carrying
the running index `i` (the Rust enumeration starts at 0). -/
def flattenElems : List Value → String → Nat → List (String × String)
  | [], _, _ => []
  | v :: rest, pfx, i =>
      flatten_yaml v (pfx ++ "[" ++ toString i ++ "]") ++ flattenElems rest pfx (i + 1)
end

/-- Embeds `difference_between_properties` (src/main.rs:71-81).  The Rust
code collects each vector into a `HashSet` (collapsing duplicate pairs),
takes `set1.difference(&set2)`, and collects the result back into a vector
whose iteration order the hash set leaves unspecified.  This embedding
fixes a deterministic order via `List.dedup`; every claim about the
function is order-insensitive (membership, emptiness, duplicate-freedom). -/
def difference_between_properties (list1 list2 : List ConsulProperties) :
    List ConsulProperties :=
  list1.dedup.filter (fun p => decide (p ∉ list2))

/-- Remove every non-overlapping occurrence of the nonempty pattern `pat`
from a character list, scanning left to right: this is the semantics of
Rust's `str::replace(pat, "")`, which locates the matches in the original
string (matches are never re-sought across a splice boundary).  An empty
`pat` is returned unchanged; the program only ever uses patterns ending in
'/'. -/
def removeAll (pat : List Char) : List Char → List Char
  | [] => []
  | c :: rest =>
      if pat ≠ [] ∧ pat.isPrefixOf (c :: rest) then
        removeAll pat (rest.drop (pat.length - 1))
      else
        c :: removeAll pat rest
termination_by l => l.length
decreasing_by
  · simp only [List.length_drop, List.length_cons]; omega
  · simp only [List.length_cons]; omega

/-- Rust's `s.replace(pat, "")` for a nonempty pattern: delete every
non-overlapping occurrence of `pat` in `s`, left to right. -/
def rustReplaceEmpty (s pat : String) : String :=
  ⟨removeAll pat.data s.data⟩

/-- Embeds the key transformation of `load_consul_properties`
(src/main.rs:165-175): the code builds `app_prefix + "/"` and maps each
returned entry through `item.key.replace(&prefix, "")` — a global replace
over the whole key, not a leading-substring strip. -/
def strip_consul_key (app_pfx key : String) : String :=
  rustReplaceEmpty key (app_pfx ++ "/")

/-- A scalar YAML node in the sense of the design: null, boolean, number,
or string. -/
def Value.isScalar : Value → Bool
  | .null => true
  | .bool _ => true
  | .number _ => true
  | .str _ => true
  | _ => false

/-- True exactly when a node matches `Value::String(_)` — the only key
shape `flatten_yaml` recurses under in a mapping. -/
def Value.isPlainString : Value → Bool
  | .str _ => true
  | _ => false

/-- The externally visible effects of the reporting branch of `main`:
the lines printed to standard output, and (when one happens) the output
file creation as a (path, full contents) pair.  `File::create` truncates
any existing file, so `fileWrite = none` means the output path is neither
created nor truncated nor written. -/
structure ReportEffects where
  consoleLines : List String
  fileWrite : Option (String × String)
deriving DecidableEq

/-- Embeds the reporting branch of `main` (src/main.rs:46-63), after the
difference has been computed.  Empty difference: print "No differences
found." and do nothing else.  Otherwise print each pair as `key=value`;
then, if an output path was supplied, create that file and write the same
lines newline-terminated, else print "No output file provided.". -/
def report (difference : List ConsulProperties) (output_file : Option String) :
    ReportEffects :=
  if difference.isEmpty then
    { consoleLines := ["No differences found."], fileWrite := none }
  else
    let lines := difference.map (fun item => item.key ++ "=" ++ item.value)
    match output_file with
    | some path =>
        { consoleLines := lines,
          fileWrite :=
            some (path,
              String.join (difference.map (fun item => item.key ++ "=" ++ item.value ++ "\n"))) }
    | none =>
        { consoleLines := lines ++ ["No output file provided."], fileWrite := none }

/-- Helper for C6: dropping the non-string-keyed entries of a mapping does
not change the flattened output, since `flattenEntries` contributes nothing
for such entries. -/
theorem flattenEntries_filter_isPlainString (entries : List (Value × Value)) (pfx : String) :
    flattenEntries entries pfx
      = flattenEntries (entries.filter (fun e => e.1.isPlainString)) pfx := by
  induction entries with
  | nil => rfl
  | cons e rest ih =>
      obtain ⟨k, v⟩ := e
      cases k <;> simp [flattenEntries, List.filter, Value.isPlainString, ih]

/-- C1: the spec claims the Remote Loader strips only the first (leading)
occurrence of `app_prefix + "/"` from a returned key, leaving any inner
occurrence intact.  The code instead performs a global replace
(`item.key.replace(&prefix, "")`): at app_prefix "app" and returned key
"app/services/app/url" it yields "services/url", deleting the inner
"app/" as well, instead of the claimed "services/app/url". -/
theorem c1_strip_consul_key_global_replace_at_failing_input :
    strip_consul_key "app" "app/services/app/url" = "services/url" ∧
    strip_consul_key "app" "app/services/app/url" ≠ "services/app/url" := by
  have h : strip_consul_key "app" "app/services/app/url" = "services/url" := by
    simp only [strip_consul_key, rustReplaceEmpty]
    norm_num [removeAll]
    decide
  exact ⟨h, by rw [h]; decide⟩

/-- C2: a property is in the output of `difference_between_properties`
exactly when it occurs in the remote list and no element of the document
list equals it as a whole pair; on the remote snapshot
(db/host,x),(db/port,5432) against the document snapshot (db/host,x) the
output is exactly (db/port,5432). -/
theorem c2_difference_membership_and_example :
    (∀ (A B : List ConsulProperties) (p : ConsulProperties),
      p ∈ difference_between_properties A B ↔ p ∈ A ∧ p ∉ B) ∧
    difference_between_properties
      [⟨"db/host", "x"⟩, ⟨"db/port", "5432"⟩] [⟨"db/host", "x"⟩]
      = [⟨"db/port", "5432"⟩] := by
  constructor
  · intro A B p
    simp [difference_between_properties, List.mem_filter, List.mem_dedup]
  · decide

/-- C3: flattening the document a: (b: 1, c: [true, "x"]) with the empty
starting path yields exactly the pairs (a/b,1), (a/c[0],true), (a/c[1],x):
mapping nesting joins with "/" and sequence elements append "[i]" with no
separator before the bracket. -/
theorem c3_flatten_nested_mapping_example :
    flatten_yaml
      (.mapping [(.str "a", .mapping [(.str "b", .number 1),
        (.str "c", .sequence [.bool true, .str "x"])])]) ""
      = [("a/b", "1"), ("a/c[0]", "true"), ("a/c[1]", "x")] := by
  decide

/-- C4: the Differencer maps equal snapshots to the empty collection, maps
(A, empty) to the deduplication of A, and is not symmetric in general. -/
theorem c4_difference_algebraic_identities :
    (∀ A : List ConsulProperties, difference_between_properties A A = []) ∧
    (∀ A : List ConsulProperties, difference_between_properties A [] = A.dedup) ∧
    (∃ A B : List ConsulProperties,
      difference_between_properties A B ≠ difference_between_properties B A) := by
  refine ⟨?_, ?_, ⟨[⟨"k", "v"⟩], [], by decide⟩⟩
  · intro A
    simp [difference_between_properties, List.filter_eq_nil_iff, List.mem_dedup]
  · intro A
    simp [difference_between_properties, List.filter_eq_self]

/-- C5: flattening a document whose root is a scalar (null, boolean,
number or string), with the empty starting path, yields exactly one
property whose key is the empty string and whose value is the scalar's
string rendering. -/
theorem c5_flatten_scalar_root (v : Value) (h : v.isScalar = true) :
    flatten_yaml v "" = [("", value_to_string v)] := by
  cases v <;> first | rfl | simp_all [Value.isScalar]

/-- Witness for C5 at the concrete scalar root "hello". -/
theorem c5_flatten_scalar_root_witness :
    Value.isScalar (.str "hello") = true ∧
    flatten_yaml (.str "hello") "" = [("", value_to_string (.str "hello"))] :=
  ⟨rfl, c5_flatten_scalar_root (.str "hello") rfl⟩

/-- C6: the flattener is a total function (so no input crashes it), and a
mapping flattens to exactly what its plain-string-keyed entries flatten to:
entries whose key is not a plain string node contribute nothing, while all
other entries of the same mapping are processed normally. -/
theorem c6_mapping_skips_non_string_keys :
    ∀ (entries : List (Value × Value)) (pfx : String),
      flatten_yaml (.mapping entries) pfx
        = flatten_yaml (.mapping (entries.filter (fun e => e.1.isPlainString))) pfx := by
  intro entries pfx
  simp only [flatten_yaml]
  exact flattenEntries_filter_isPlainString entries pfx

/-- C7: when the computed difference is empty, the reporting branch of
`main` prints exactly the distinct "No differences found." message and
performs no create/truncate/write on any output path, even when an output
path was supplied. -/
theorem c7_empty_difference_writes_nothing
    (difference : List ConsulProperties) (out : Option String)
    (h : difference.isEmpty = true) :
    report difference out
      = { consoleLines := ["No differences found."], fileWrite := none } := by
  simp [report, h]

/-- Witness for C7: the empty difference with an output path supplied. -/
theorem c7_empty_difference_writes_nothing_witness :
    ([] : List ConsulProperties).isEmpty = true ∧
    report [] (some "diff.properties")
      = { consoleLines := ["No differences found."], fileWrite := none } :=
  ⟨rfl, c7_empty_difference_writes_nothing [] (some "diff.properties") rfl⟩

/-- C8: scalar leaves render as: the literal text "null" for null,
"true"/"false" for booleans, the decimal text of the number (sign included)
for numbers, and the string itself, unmodified, for strings. -/
theorem c8_scalar_value_rendering :
    value_to_string .null = "null" ∧
    (∀ b : Bool, value_to_string (.bool b) = if b then "true" else "false") ∧
    (∀ n : Nat, value_to_string (.number (Int.ofNat n)) = Nat.repr n) ∧
    (∀ n : Nat, value_to_string (.number (Int.negSucc n)) = "-" ++ Nat.repr (n + 1)) ∧
    (∀ s : String, value_to_string (.str s) = s) :=
  ⟨rfl, by intro b; cases b <;> rfl, fun _ => rfl, fun _ => rfl, fun _ => rfl⟩

/-- C9: an empty mapping node and an empty sequence node contribute no
properties at any accumulated path, so flattening an empty-container root
(and any empty-container subtree) yields nothing for it. -/
theorem c9_empty_containers_flatten_to_nothing :
    ∀ pfx : String,
      flatten_yaml (.mapping []) pfx = [] ∧ flatten_yaml (.sequence []) pfx = [] :=
  fun _ => ⟨rfl, rfl⟩

/-- C10: the Differencer's output never contains a pair twice, even when
the remote input list contains duplicate pairs. -/
theorem c10_difference_output_nodup :
    (∀ A B : List ConsulProperties, (difference_between_properties A B).Nodup) ∧
    difference_between_properties [⟨"k", "v"⟩, ⟨"k", "v"⟩] [] = [⟨"k", "v"⟩] :=
  ⟨fun A _ => (List.nodup_dedup A).filter _, by decide⟩
